import Mathlib

/-!
Verification development for the telegram-media-downloader repository.

Shallow embedding of the core logic of src/downloader.py and
src/link_extractor.py:

* The network client (telethon), the terminal UI and the logging setup are
  external collaborators; transfers are modelled by an outcome oracle
  (one `Outcome` per message), the filesystem by the set of existing paths,
  and wall-clock timestamps by an explicit `now : Nat` parameter.
* Python strings are Lean `String`s; `str.lower` is modelled by `pyLower`
  (ASCII case folding, which agrees with Python on the ASCII selectors and
  patterns this code uses), `str.startswith` by `pyStartswith`.
* Python `set` objects are `Finset String`.
* `asyncio.gather` over one batch of `download_file` tasks: each task runs
  synchronously (its ledger check included) up to its first await, before
  any transfer completes, so every task in a group sees the ledger as of
  the group start (`snapshot`); effects are then applied per task.  With
  the distinct file ids exercised here the application order is
  irrelevant; we apply them in list order, and gather returns results in
  task order.
* `download_file` wraps all fallible transfer I/O in try/except and always
  returns a bool, so the `isinstance(result, Exception)` arm of the result
  counter can only see a bool; `TaskResult` keeps the exception arm of the
  counter representable.
-/

/-! ## Data model: message shapes seen by downloader.py -/

/-- One element of document.attributes; downloader.py only inspects whether
it is a DocumentAttributeFilename (carrying file_name). -/
inductive DocAttr where
  | filename (file_name : String)
  | other
deriving DecidableEq, Repr

/-- The document payload of a message (telethon Document), restricted to the
fields downloader.py reads. -/
structure TLDocument where
  id : Int
  mime_type : Option String
  attributes : List DocAttr
deriving DecidableEq, Repr

/-- The video payload of a message, restricted to the fields read. -/
structure TLVideo where
  id : Int
deriving DecidableEq, Repr

/-- The photo payload of a message, restricted to the fields read. -/
structure TLPhoto where
  id : Int
deriving DecidableEq, Repr

/-- A media-bearing telethon message as probed by downloader.py:
optional video / document / photo payloads plus message.file.name
(file_name here), which download_file uses as a fallback. -/
structure Message where
  id : Int
  video : Option TLVideo
  document : Option TLDocument
  photo : Option TLPhoto
  file_name : Option String
deriving DecidableEq, Repr

/-- Python str.lower restricted to ASCII case folding (all selector strings
and link patterns in this program are ASCII). -/
def pyLower (s : String) : String := String.mk (s.data.map Char.toLower)

/-- Python str.startswith. -/
def pyStartswith (s pre : String) : Bool := pre.data.isPrefixOf s.data

/-! ## DownloadState (the persisted download ledger) -/

/-- What the process finds at the state-file path when loading:
the file is absent; or present but unreadable / not valid JSON / of the
wrong shape (any exception inside the try of load_state); or readable JSON
whose downloaded_files key parses to a list of strings (an absent key is
the empty list, via data.get). -/
inductive StateFileContent where
  | missing
  | corrupt
  | valid (ids : List String)
deriving DecidableEq, Repr

/-- The DownloadState object together with the persisted file it manages:
downloaded_files is the in-memory set, persisted / last_updated mirror the
JSON contents written by save_state. -/
structure DownloadState where
  downloaded_files : Finset String
  persisted : Finset String
  last_updated : Nat
deriving DecidableEq

namespace DownloadState

/-- DownloadState.load_state: the resulting in-memory set together with
whether the warning branch (the except clause) ran.  A missing file leaves
the initial empty set silently; any exception while reading or parsing is
caught, logged as a warning, and likewise leaves the empty set; the method
never lets an exception escape to the caller (in the embedding it is a
total function). -/
def load_state : StateFileContent → Finset String × Bool
  | StateFileContent.missing => (∅, false)
  | StateFileContent.corrupt => (∅, true)
  | StateFileContent.valid ids => (ids.toFinset, false)

/-- DownloadState.save_state: rewrites the persisted file with the full
current set and a fresh timestamp. -/
def save_state (st : DownloadState) (now : Nat) : DownloadState :=
  { st with persisted := st.downloaded_files, last_updated := now }

/-- DownloadState.is_downloaded: membership test. -/
def is_downloaded (st : DownloadState) (file_id : String) : Bool :=
  file_id ∈ st.downloaded_files

/-- DownloadState.mark_downloaded: add the id, then immediately save. -/
def mark_downloaded (st : DownloadState) (file_id : String) (now : Nat) : DownloadState :=
  save_state { st with downloaded_files := insert file_id st.downloaded_files } now

/-- A ledger operation of one session (the two public query/update methods). -/
inductive LedgerOp where
  | is_downloaded (file_id : String)
  | mark_downloaded (file_id : String)
deriving DecidableEq, Repr

/-- Effect of one ledger operation on the state (is_downloaded is a pure
query), at a given wall-clock instant. -/
def apply_op (st : DownloadState) : LedgerOp × Nat → DownloadState
  | (LedgerOp.is_downloaded _, _) => st
  | (LedgerOp.mark_downloaded file_id, now) => mark_downloaded st file_id now

/-- Run a sequence of ledger operations, each with its timestamp. -/
def run_ops (st : DownloadState) : List (LedgerOp × Nat) → DownloadState
  | [] => st
  | op :: rest => run_ops (apply_op st op) rest

end DownloadState

/-! ## Download orchestration (TelegramDownloader) -/

/-- External outcome of one attempted transfer (message.download_media):
it either completes, writing the destination file, or raises, having
written a partial destination file or not (wroteFile). -/
inductive Outcome where
  | success
  | failure (wroteFile : Bool)

/-- What asyncio.gather(..., return_exceptions=True) hands the result
counter per task: an exception that escaped the task, or the bool returned
by download_file. -/
inductive TaskResult where
  | exn
  | val (b : Bool)
deriving DecidableEq, Repr

/-- Mutable state touched by download_file: the ledger (DownloadState) and
the filesystem, modelled as the set of existing file paths. -/
structure DLState where
  download_state : DownloadState
  fs : Finset String
deriving DecidableEq

/-- The stats dict accumulated by download_batch. -/
structure BatchStats where
  success : Nat
  failed : Nat
  skipped : Nat
deriving DecidableEq, Repr

namespace TelegramDownloader

/-- TelegramDownloader.get_file_id. -/
def get_file_id (message : Message) : String :=
  match message.video with
  | some v => "video_" ++ toString message.id ++ "_" ++ toString v.id
  | none =>
    match message.document with
    | some d => "doc_" ++ toString message.id ++ "_" ++ toString d.id
    | none =>
      match message.photo with
      | some p => "photo_" ++ toString message.id ++ "_" ++ toString p.id
      | none => "media_" ++ toString message.id

/-- The attribute loop of get_file_name: the file_name of the first
DocumentAttributeFilename, if any. -/
def findFilenameAttr : List DocAttr → Option String
  | [] => none
  | DocAttr.filename n :: _ => some n
  | DocAttr.other :: rest => findFilenameAttr rest

/-- TelegramDownloader.get_file_name (document branch first, then video,
photo, and the media fallback, as in the source). -/
def get_file_name (message : Message) : String :=
  match message.document with
  | some d =>
    match findFilenameAttr d.attributes with
    | some n => n
    | none => "document_" ++ toString message.id
  | none =>
    match message.video with
    | some _ => "video_" ++ toString message.id ++ ".mp4"
    | none =>
      match message.photo with
      | some _ => "photo_" ++ toString message.id ++ ".jpg"
      | none => "media_" ++ toString message.id

/-- The filename guard at the top of download_file: a name that is a
telethon object placeholder string is replaced by message.file.name when
that is a truthy string, else by the synthesized media fallback.  (The
isinstance(file_name, str) disjunct is vacuous in the embedding, where
filenames are strings.) -/
def resolved_file_name (message : Message) : String :=
  let file_name := get_file_name message
  if pyStartswith file_name ("<telethon.tl.custom") then
    match message.file_name with
    | some n => if n = "" then "media_" ++ toString message.id else n
    | none => "media_" ++ toString message.id
  else file_name

/-- TelegramDownloader.download_file: the per-item task body.  snapshot is
the ledger content the task's is_downloaded check sees (the group-start
ledger, see the header comment).  Already-downloaded: log and return True.
Otherwise attempt the transfer; on success mark_downloaded (which saves)
and return True; on any exception delete the partial destination file if
present and return False.  The task itself never raises. -/
def download_file (outcome : Message → Outcome) (folder : String) (now : Nat)
    (snapshot : Finset String) (st : DLState) (message : Message) :
    DLState × TaskResult :=
  let file_id := get_file_id message
  if file_id ∈ snapshot then
    (st, TaskResult.val true)
  else
    let path := folder ++ "/" ++ resolved_file_name message
    match outcome message with
    | Outcome.success =>
      ({ download_state := DownloadState.mark_downloaded st.download_state file_id now,
         fs := insert path st.fs },
       TaskResult.val true)
    | Outcome.failure wroteFile =>
      let fs1 := if wroteFile then insert path st.fs else st.fs
      ({ st with fs := fs1.erase path }, TaskResult.val false)

/-- One gather over a group: every task checks the group-start snapshot,
effects apply per task, results come back in task order. -/
def run_group (outcome : Message → Outcome) (folder : String) (now : Nat)
    (snapshot : Finset String) : DLState → List Message → DLState × List TaskResult
  | st, [] => (st, [])
  | st, m :: ms =>
    let r := download_file outcome folder now snapshot st m
    let rest := run_group outcome folder now snapshot r.1 ms
    (rest.1, r.2 :: rest.2)

/-- The result-counting loop of download_batch. -/
def countResults : BatchStats → List TaskResult → BatchStats
  | stats, [] => stats
  | stats, TaskResult.exn :: rs =>
    countResults { stats with failed := stats.failed + 1 } rs
  | stats, TaskResult.val true :: rs =>
    countResults { stats with success := stats.success + 1 } rs
  | stats, TaskResult.val false :: rs =>
    countResults { stats with skipped := stats.skipped + 1 } rs

/-- The batch loop of download_batch (for i in range(0, len, batch_size)),
with fuel bounding the number of groups; download_batch supplies fuel =
len(messages), enough whenever batch_size is positive (with batch_size = 0
the Python range raises, which the fuel models by stopping). -/
def download_batch_go (outcome : Message → Outcome) (folder : String) (now : Nat)
    (batch_size : Nat) :
    Nat → DLState → BatchStats → List Message → DLState × BatchStats
  | 0, st, stats, _ => (st, stats)
  | _ + 1, st, stats, [] => (st, stats)
  | fuel + 1, st, stats, m :: ms =>
    let group := (m :: ms).take batch_size
    let snapshot := st.download_state.downloaded_files
    let gr := run_group outcome folder now snapshot st group
    download_batch_go outcome folder now batch_size fuel gr.1
      (countResults stats gr.2) ((m :: ms).drop batch_size)

/-- TelegramDownloader.download_batch: directory creation is assumed to
succeed (its failure is fatal and propagates, outside this model); stats
start at zero and accumulate group by group. -/
def download_batch (outcome : Message → Outcome) (folder : String) (now : Nat)
    (st : DLState) (messages : List Message) (batch_size : Nat) :
    DLState × BatchStats :=
  download_batch_go outcome folder now batch_size messages.length st
    { success := 0, failed := 0, skipped := 0 } messages

/-- TelegramDownloader.filter_messages_by_type.  The source's for/elif
append loop over messages, for a fixed media_type, is List.filter with the
corresponding elif-chain predicate (truthiness of the payloads is
Option.isSome; mime_type equality is exact string equality). -/
def filter_messages_by_type (messages : List Message) (media_type : String) :
    List Message :=
  if pyLower media_type = "all" then messages
  else
    messages.filter fun message =>
      if pyLower media_type = "images" then message.photo.isSome
      else if pyLower media_type = "videos" then message.video.isSome
      else if pyLower media_type = "pdfs" then
        match message.document with
        | some d => d.mime_type == some ("application/pdf")
        | none => false
      else if pyLower media_type = "zips" then
        match message.document with
        | some d => d.mime_type == some ("application/zip")
        | none => false
      else if pyLower media_type = "documents" then message.document.isSome
      else false

end TelegramDownloader

/-- The module-level filter_messages_by_type of downloader.py (the
getattr-probing variant); over this message model the probes coincide with
the method's direct attribute reads. -/
def filter_messages_by_type (messages : List Message) (media_type : String) :
    List Message :=
  if pyLower media_type = "all" then messages
  else
    messages.filter fun message =>
      if pyLower media_type = "images" then message.photo.isSome
      else if pyLower media_type = "videos" then message.video.isSome
      else if pyLower media_type = "pdfs" then
        match message.document with
        | some d => d.mime_type == some ("application/pdf")
        | none => false
      else if pyLower media_type = "zips" then
        match message.document with
        | some d => d.mime_type == some ("application/zip")
        | none => false
      else if pyLower media_type = "documents" then message.document.isSome
      else false

/-- Specification-side predicate for the pdfs selector: the message carries
a document whose MIME type is exactly the string application/pdf. -/
def carriesPdfDocument (message : Message) : Bool :=
  match message.document with
  | some d => d.mime_type == some ("application/pdf")
  | none => false

/-! ## Link extractor (src/link_extractor.py) -/

namespace TelegramLinkExtractor

/-- The structural source of a link record (the four context strings the
code produces). -/
inductive Context where
  | text
  | caption
  | entity
  | button
deriving DecidableEq, Repr

/-- One collected link record (the dict built per match); datetime.now()
is the now parameter threaded through the scan. -/
structure LinkRecord where
  link : String
  message_id : Int
  chat_id : Option Int
  context : Context
  position : Option (Nat × Nat)
  timestamp : Nat
deriving DecidableEq, Repr

/-- A message entity as probed by extract_links_from_entities:
whether it is a MessageEntityTextUrl / MessageEntityUrl, its url attribute
when it has one, and its declared span. -/
structure MsgEntity where
  isUrlEntity : Bool
  url : Option String
  offset : Nat
  length : Nat
deriving DecidableEq, Repr

/-- An inline keyboard button as probed by extract_links_from_reply_markup. -/
structure UrlButton where
  isUrlButton : Bool
  url : String
deriving DecidableEq, Repr

/-- A message as probed by the link extractor: main text, caption,
entities, and the button rows of the reply markup when present. -/
structure LMessage where
  id : Int
  chat_id : Option Int
  message : Option String
  caption : Option String
  entities : List MsgEntity
  reply_markup : Option (List (List UrlButton))
deriving DecidableEq, Repr

/-- The regex character class [a-zA-Z0-9_] (ASCII word characters). -/
def isWordChar (c : Char) : Bool := c.isAlpha || c.isDigit || c = '_'

/-- Length of the longest prefix satisfying p (the greedy run a + or a
bounded repetition consumes). -/
def countWhile (p : Char → Bool) : List Char → Nat
  | [] => 0
  | c :: cs => if p c then countWhile p cs + 1 else 0

/-- Case-insensitive literal match (the patterns are compiled with
re.IGNORECASE); lit is given lowercase.  Returns the remaining input. -/
def litCIAux : List Char → List Char → Option (List Char)
  | [], cs => some cs
  | _ :: _, [] => none
  | l :: ls, c :: cs => if c.toLower = l then litCIAux ls cs else none

/-- Match a lowercase literal at the head, returning consumed length and
rest. -/
def litCI (lit : String) (cs : List Char) : Option (Nat × List Char) :=
  match litCIAux lit.data cs with
  | some rest => some (lit.data.length, rest)
  | none => none

/-- Optional single character (the s? of https?), case-insensitive;
greedy, and in these patterns the literal that follows cannot start with
the optional character, so no backtracking arises. -/
def optCharCI (ch : Char) : List Char → Nat × List Char
  | [] => (0, [])
  | c :: cs => if c.toLower = ch then (1, cs) else (0, c :: cs)

/-- One-or-more of a character class, greedy; in these patterns the
following literal (if any) never satisfies the class, so no backtracking
arises. -/
def plusClass (p : Char → Bool) (cs : List Char) : Option (Nat × List Char) :=
  let n := countWhile p cs
  if n = 0 then none else some (n, cs.drop n)

/-- Pattern 1 matched at the head. -/
def p1At (cs : List Char) : Option Nat := do
  let (a, cs) ← litCI ("http") cs
  let (b, cs) := optCharCI 's' cs
  let (c, cs) ← litCI ("://t.me/") cs
  let (d, _) ← plusClass isWordChar cs
  pure (a + b + c + d)

/-- Pattern 2 matched at the head. -/
def p2At (cs : List Char) : Option Nat := do
  let (a, cs) ← litCI ("t.me/") cs
  let (b, _) ← plusClass isWordChar cs
  pure (a + b)

/-- Pattern 3 matched at the head: a literal at-sign
followed greedily by 5 to 32 word characters. -/
def p3At : List Char → Option Nat
  | [] => none
  | c :: cs =>
    if c = '@' then
      let m := min (countWhile isWordChar cs) 32
      if 5 ≤ m then some (1 + m) else none
    else none

/-- Pattern 4 matched at the head. -/
def p4At (cs : List Char) : Option Nat := do
  let (a, cs) ← litCI ("http") cs
  let (b, cs) := optCharCI 's' cs
  let (c, cs) ← litCI ("://t.me/joinchat/") cs
  let (d, _) ← plusClass (fun ch => isWordChar ch || ch = '-') cs
  pure (a + b + c + d)

/-- Pattern 5 matched at the head. -/
def p5At (cs : List Char) : Option Nat := do
  let (a, cs) ← litCI ("http") cs
  let (b, cs) := optCharCI 's' cs
  let (c, cs) ← litCI ("://t.me/c/") cs
  let (d, cs) ← plusClass Char.isDigit cs
  let (e, cs) ← litCI ("/") cs
  let (f, _) ← plusClass Char.isDigit cs
  pure (a + b + c + d + e + f)

/-- self.link_patterns, in source order. -/
def link_patterns : List (List Char → Option Nat) := [p1At, p2At, p3At, p4At, p5At]

/-- re.finditer: scan left to right; at each position emit the (greedy)
match starting there if any and resume after it, else advance one
character.  The spans are (start, end) in characters.  fuel bounds the
scan; the callers pass the text length, enough because every pattern here
consumes at least one character (the len = 0 arm is unreachable). -/
def finditer (matchAt : List Char → Option Nat) :
    Nat → List Char → Nat → List (Nat × Nat)
  | 0, _, _ => []
  | _ + 1, [], _ => []
  | fuel + 1, c :: cs, pos =>
    match matchAt (c :: cs) with
    | some len =>
      if len = 0 then finditer matchAt fuel cs (pos + 1)
      else (pos, len) :: finditer matchAt fuel ((c :: cs).drop len) (pos + len)
    | none => finditer matchAt fuel cs (pos + 1)

/-- The records one pattern contributes in extract_links_from_text:
link is match.group(0), position is match.span(). -/
def patternRecords (matchAt : List Char → Option Nat) (text : String)
    (message_id : Int) (chat_id : Option Int) (context : Context) (now : Nat) :
    List LinkRecord :=
  (finditer matchAt text.data.length text.data 0).map fun sl =>
    { link := String.mk ((text.data.drop sl.1).take sl.2),
      message_id := message_id,
      chat_id := chat_id,
      context := context,
      position := some (sl.1, sl.1 + sl.2),
      timestamp := now }

/-- TelegramLinkExtractor.extract_links_from_text: empty text yields no
records; otherwise every match of every one of the five patterns is
recorded independently, in pattern order. -/
def extract_links_from_text (text : String) (message_id : Int)
    (chat_id : Option Int) (context : Context) (now : Nat) : List LinkRecord :=
  if text = "" then []
  else
    (link_patterns.map fun p =>
      patternRecords p text message_id chat_id context now).flatten

/-- TelegramLinkExtractor.extract_links_from_entities: one record per url
entity whose url attribute is present and truthy, tagged entity, with the
entity's declared span. -/
def extract_links_from_entities (m : LMessage) (now : Nat) : List LinkRecord :=
  m.entities.filterMap fun e =>
    if e.isUrlEntity then
      match e.url with
      | some u =>
        if u = "" then none
        else
          some { link := u,
                 message_id := m.id,
                 chat_id := m.chat_id,
                 context := Context.entity,
                 position := some (e.offset, e.offset + e.length),
                 timestamp := now }
      | none => none
    else none

/-- TelegramLinkExtractor.extract_links_from_reply_markup: one record per
KeyboardButtonUrl, tagged button, position unset. -/
def extract_links_from_reply_markup (m : LMessage) (now : Nat) : List LinkRecord :=
  match m.reply_markup with
  | none => []
  | some rows =>
    (rows.map fun row =>
      row.filterMap fun b =>
        if b.isUrlButton then
          some { link := b.url,
                 message_id := m.id,
                 chat_id := m.chat_id,
                 context := Context.button,
                 position := none,
                 timestamp := now }
        else none).flatten

/-- TelegramLinkExtractor.process_message: text, caption, entities,
buttons, concatenated in that order (a falsy, i.e. empty, text or caption
is skipped). -/
def process_message (m : LMessage) (now : Nat) : List LinkRecord :=
  (match m.message with
   | some t =>
     if t = "" then [] else extract_links_from_text t m.id m.chat_id Context.text now
   | none => []) ++
  (match m.caption with
   | some t =>
     if t = "" then [] else extract_links_from_text t m.id m.chat_id Context.caption now
   | none => []) ++
  extract_links_from_entities m now ++
  extract_links_from_reply_markup m now

/-- The statistics.link_types dict; its keys are exactly the four context
strings the records carry. -/
structure LinkTypeCounts where
  text : Nat
  caption : Nat
  entity : Nat
  button : Nat
deriving DecidableEq, Repr

/-- Increment the count of one context key. -/
def bumpContext (lt : LinkTypeCounts) : Context → LinkTypeCounts
  | Context.text => { lt with text := lt.text + 1 }
  | Context.caption => { lt with caption := lt.caption + 1 }
  | Context.entity => { lt with entity := lt.entity + 1 }
  | Context.button => { lt with button := lt.button + 1 }

/-- The per-record link_types update loop of extract_links_from_channel. -/
def addCounts : LinkTypeCounts → List LinkRecord → LinkTypeCounts
  | lt, [] => lt
  | lt, r :: rs => addCounts (bumpContext lt r.context) rs

/-- Accumulator of the message loop of extract_links_from_channel. -/
structure ExtractAcc where
  message_count : Nat
  total_links : Nat
  links : List LinkRecord
  link_types : LinkTypeCounts
deriving DecidableEq, Repr

/-- The async-for message loop of extract_links_from_channel. -/
def extractLoop (now : Nat) : ExtractAcc → List LMessage → ExtractAcc
  | acc, [] => acc
  | acc, m :: ms =>
    let recs := process_message m now
    extractLoop now
      { message_count := acc.message_count + 1,
        total_links := acc.total_links + recs.length,
        links := acc.links ++ recs,
        link_types := addCounts acc.link_types recs }
      ms

/-- The fields of the results dict that the scan computes (channel
metadata and serialization are outside the model). -/
structure ExtractResults where
  total_messages_processed : Nat
  total_links_found : Nat
  links : List LinkRecord
  link_types : LinkTypeCounts
  unique_links : Nat
deriving DecidableEq, Repr

/-- TelegramLinkExtractor.extract_links_from_channel over the fetched
message list: run the loop from the zero accumulator, then compute
unique_links as the cardinality of the set of link strings (Python
len of a set comprehension, exact case-sensitive string equality). -/
def extract_links_from_channel (msgs : List LMessage) (now : Nat) : ExtractResults :=
  let acc := extractLoop now
    { message_count := 0, total_links := 0, links := [],
      link_types := { text := 0, caption := 0, entity := 0, button := 0 } } msgs
  { total_messages_processed := acc.message_count,
    total_links_found := acc.total_links,
    links := acc.links,
    link_types := acc.link_types,
    unique_links := (acc.links.map LinkRecord.link).toFinset.card }

end TelegramLinkExtractor

/-! ## Concrete fixtures for counterexamples and witnesses -/

/-- A photo message. -/
def msgPhoto1 : Message :=
  { id := 1, video := none, document := none, photo := some { id := 11 }, file_name := none }

/-- A second photo message. -/
def msgPhoto2 : Message :=
  { id := 2, video := none, document := none, photo := some { id := 12 }, file_name := none }

/-- A third photo message. -/
def msgPhoto3 : Message :=
  { id := 3, video := none, document := none, photo := some { id := 13 }, file_name := none }

/-- A message carrying a PDF document. -/
def msgPdf : Message :=
  { id := 4, video := none,
    document := some { id := 40, mime_type := some ("application/pdf"), attributes := [] },
    photo := none, file_name := none }

/-- A video message. -/
def msgVideo5 : Message :=
  { id := 5, video := some { id := 50 }, document := none, photo := none, file_name := none }

/-- A document message with an explicit filename attribute. -/
def msgDocNamed : Message :=
  { id := 6, video := none,
    document := some { id := 60, mime_type := some ("application/pdf"),
                       attributes := [DocAttr.filename ("report.pdf")] },
    photo := none, file_name := none }

/-- A document message whose filename attribute is a telethon placeholder
string, while message.file.name carries the real name. -/
def msgPlaceholder : Message :=
  { id := 7, video := none,
    document := some { id := 70, mime_type := none,
                       attributes := [DocAttr.filename ("<telethon.tl.custom.file.File object>")] },
    photo := none, file_name := some ("real_name.bin") }

/-- Fresh state: empty ledger, empty filesystem. -/
def emptyDL : DLState :=
  { download_state := { downloaded_files := ∅, persisted := ∅, last_updated := 0 }, fs := ∅ }

/-- State after a first run that downloaded msgPhoto1 (its id is in the
ledger); the filesystem view starts empty for the second run's folder. -/
def ledgerAfterFirstRun : DLState :=
  { download_state := { downloaded_files := {"photo_1_11"}, persisted := {"photo_1_11"},
                        last_updated := 0 },
    fs := ∅ }

/-- Transfer oracle: the message with id 2 fails after writing a partial
file; all others succeed. -/
def failSecondOutcome : Message → Outcome :=
  fun m => if m.id = 2 then Outcome.failure true else Outcome.success

/-! ## Helper lemmas -/

theorem apply_op_subset (st : DownloadState) (op : DownloadState.LedgerOp × Nat) :
    st.downloaded_files ⊆ (DownloadState.apply_op st op).downloaded_files := by
  rcases op with ⟨op, now⟩
  cases op with
  | is_downloaded _ => exact Finset.Subset.refl _
  | mark_downloaded file_id =>
    intro x hx
    simp only [DownloadState.apply_op, DownloadState.mark_downloaded,
      DownloadState.save_state, Finset.mem_insert]
    exact Or.inr hx

theorem run_ops_subset (ops : List (DownloadState.LedgerOp × Nat)) :
    ∀ st : DownloadState,
      st.downloaded_files ⊆ (DownloadState.run_ops st ops).downloaded_files := by
  induction ops with
  | nil => intro st; exact Finset.Subset.refl _
  | cons op rest ih => intro st; exact (apply_op_subset st op).trans (ih _)

/-! ## Claim theorems -/

/-- C5: within a session the ledger's membership is monotonic under any
sequence of is_downloaded / mark_downloaded operations, and
mark_downloaded makes the in-memory set the old set plus the id and
immediately persists that full set together with the new timestamp. -/
theorem ledger_monotone_and_mark_persists (st : DownloadState)
    (ops : List (DownloadState.LedgerOp × Nat)) (file_id : String) (now : Nat) :
    st.downloaded_files ⊆ (DownloadState.run_ops st ops).downloaded_files
    ∧ (DownloadState.mark_downloaded st file_id now).downloaded_files
        = insert file_id st.downloaded_files
    ∧ (DownloadState.mark_downloaded st file_id now).persisted
        = insert file_id st.downloaded_files
    ∧ (DownloadState.mark_downloaded st file_id now).last_updated = now :=
  ⟨run_ops_subset ops st, rfl, rfl, rfl⟩

/-- C4: loading the ledger never fails the caller: a missing state file
yields the empty set without the warning branch running, and a corrupt or
unreadable file runs the warning branch and likewise yields the empty set
(load_state is a total function of the file content). -/
theorem load_state_missing_or_corrupt_empty :
    DownloadState.load_state StateFileContent.missing = (∅, false)
    ∧ DownloadState.load_state StateFileContent.corrupt = (∅, true) :=
  ⟨rfl, rfl⟩

/-- C1 (code evaluated at the failing input): rerunning download_batch on a
one-message list whose derived id is already in the shared ledger performs
no transfer and changes nothing (the oracle here would fail any attempted
transfer, yet the state is returned unchanged), but the stats are
success = 1, skipped = 0, failed = 0: the already-downloaded item is
counted as success, not skipped — download_file returns True on the skip
path and download_batch buckets True results as success, contrary to the
claim, to the source's own skip log line, and to its
Skipped (Already Downloaded) results label. -/
theorem second_run_counts_skips_as_success :
    (TelegramDownloader.download_batch (fun _ => Outcome.failure true) ("downloads") 0
        ledgerAfterFirstRun [msgPhoto1] 5).2
      = { success := 1, failed := 0, skipped := 0 }
    ∧ (TelegramDownloader.download_batch (fun _ => Outcome.failure true) ("downloads") 0
        ledgerAfterFirstRun [msgPhoto1] 5).1
      = ledgerAfterFirstRun :=
  ⟨rfl, rfl⟩

/-- C2 (code evaluated at the failing input): with three distinct photo
messages and a transfer failure (after a partial write) on item 2, items 1
and 3 still complete and are recorded in the ledger, and item 2's partial
file is deleted from the filesystem — failure isolation and cleanup hold —
but the stats are success = 2, skipped = 1, failed = 0: the transfer
failure is counted in skipped (download_file returns False and the counter
buckets non-True non-exception results as skipped), so failed does not
equal the number of failed transfers, contrary to the claim and to the
source's own Failed results label. -/
theorem failure_isolated_but_counted_as_skipped :
    (TelegramDownloader.download_batch failSecondOutcome ("downloads") 0 emptyDL
        [msgPhoto1, msgPhoto2, msgPhoto3] 3).2
      = { success := 2, failed := 0, skipped := 1 }
    ∧ "photo_1_11" ∈ (TelegramDownloader.download_batch failSecondOutcome ("downloads") 0 emptyDL
        [msgPhoto1, msgPhoto2, msgPhoto3] 3).1.download_state.downloaded_files
    ∧ "photo_3_13" ∈ (TelegramDownloader.download_batch failSecondOutcome ("downloads") 0 emptyDL
        [msgPhoto1, msgPhoto2, msgPhoto3] 3).1.download_state.downloaded_files
    ∧ "photo_2_12" ∉ (TelegramDownloader.download_batch failSecondOutcome ("downloads") 0 emptyDL
        [msgPhoto1, msgPhoto2, msgPhoto3] 3).1.download_state.downloaded_files
    ∧ "downloads/photo_1.jpg" ∈ (TelegramDownloader.download_batch failSecondOutcome ("downloads") 0
        emptyDL [msgPhoto1, msgPhoto2, msgPhoto3] 3).1.fs
    ∧ "downloads/photo_3.jpg" ∈ (TelegramDownloader.download_batch failSecondOutcome ("downloads") 0
        emptyDL [msgPhoto1, msgPhoto2, msgPhoto3] 3).1.fs
    ∧ "downloads/photo_2.jpg" ∉ (TelegramDownloader.download_batch failSecondOutcome ("downloads") 0
        emptyDL [msgPhoto1, msgPhoto2, msgPhoto3] 3).1.fs := by
  refine ⟨rfl, ?_, ?_, ?_, ?_, ?_, ?_⟩ <;> decide

theorem run_group_results_length (outcome : Message → Outcome) (folder : String)
    (now : Nat) (snapshot : Finset String) :
    ∀ (group : List Message) (st : DLState),
      (TelegramDownloader.run_group outcome folder now snapshot st group).2.length
        = group.length := by
  intro group
  induction group with
  | nil => intro st; rfl
  | cons m ms ih =>
    intro st
    simp only [TelegramDownloader.run_group, List.length_cons]
    rw [ih]

theorem countResults_total :
    ∀ (rs : List TaskResult) (stats : BatchStats),
      (TelegramDownloader.countResults stats rs).success
      + (TelegramDownloader.countResults stats rs).failed
      + (TelegramDownloader.countResults stats rs).skipped
      = stats.success + stats.failed + stats.skipped + rs.length := by
  intro rs
  induction rs with
  | nil => intro stats; simp [TelegramDownloader.countResults]
  | cons r rs ih =>
    intro stats
    cases r with
    | exn =>
      simp only [TelegramDownloader.countResults, List.length_cons]
      rw [ih]; simp; omega
    | val b =>
      cases b with
      | true =>
        simp only [TelegramDownloader.countResults, List.length_cons]
        rw [ih]; simp; omega
      | false =>
        simp only [TelegramDownloader.countResults, List.length_cons]
        rw [ih]; simp; omega

theorem download_batch_go_total (outcome : Message → Outcome) (folder : String)
    (now : Nat) (batch_size : Nat) (hbs : 0 < batch_size) :
    ∀ (fuel : Nat) (msgs : List Message) (st : DLState) (stats : BatchStats),
      msgs.length ≤ fuel →
      (TelegramDownloader.download_batch_go outcome folder now batch_size fuel st stats msgs).2.success
      + (TelegramDownloader.download_batch_go outcome folder now batch_size fuel st stats msgs).2.failed
      + (TelegramDownloader.download_batch_go outcome folder now batch_size fuel st stats msgs).2.skipped
      = stats.success + stats.failed + stats.skipped + msgs.length := by
  intro fuel
  induction fuel with
  | zero =>
    intro msgs st stats hlen
    have hnil : msgs = [] := List.eq_nil_of_length_eq_zero (Nat.le_zero.mp hlen)
    subst hnil
    simp [TelegramDownloader.download_batch_go]
  | succ fuel ih =>
    intro msgs st stats hlen
    cases msgs with
    | nil => simp [TelegramDownloader.download_batch_go]
    | cons m ms =>
      simp only [TelegramDownloader.download_batch_go]
      rw [ih _ _ _ (by simp only [List.length_drop] at *; simp at hlen ⊢; omega)]
      rw [countResults_total, run_group_results_length]
      have hsplit : ((m :: ms).take batch_size).length + ((m :: ms).drop batch_size).length
          = (m :: ms).length := by
        simp only [List.length_take, List.length_drop]; omega
      omega

/-- C10: every input item lands in exactly one stats bucket, so for any
positive batch size the returned success + failed + skipped equals the
length of the input message list. -/
theorem batch_stats_total_eq_length (outcome : Message → Outcome) (folder : String)
    (now : Nat) (st : DLState) (messages : List Message) (batch_size : Nat)
    (h : 0 < batch_size) :
    (TelegramDownloader.download_batch outcome folder now st messages batch_size).2.success
    + (TelegramDownloader.download_batch outcome folder now st messages batch_size).2.failed
    + (TelegramDownloader.download_batch outcome folder now st messages batch_size).2.skipped
    = messages.length := by
  unfold TelegramDownloader.download_batch
  rw [download_batch_go_total outcome folder now batch_size h messages.length messages st _
    (Nat.le_refl _)]
  simp

/-- Witness for C10 at a concrete run: three messages, batch size 2, one
simulated failure; the three buckets still sum to 3. -/
theorem batch_stats_total_eq_length_witness :
    0 < 2
    ∧ (TelegramDownloader.download_batch failSecondOutcome ("downloads") 0 emptyDL
        [msgPhoto1, msgPhoto2, msgPhoto3] 2).2.success
      + (TelegramDownloader.download_batch failSecondOutcome ("downloads") 0 emptyDL
        [msgPhoto1, msgPhoto2, msgPhoto3] 2).2.failed
      + (TelegramDownloader.download_batch failSecondOutcome ("downloads") 0 emptyDL
        [msgPhoto1, msgPhoto2, msgPhoto3] 2).2.skipped
      = 3 :=
  ⟨Nat.zero_lt_succ 1, by
    have h := batch_stats_total_eq_length failSecondOutcome ("downloads") 0 emptyDL
      [msgPhoto1, msgPhoto2, msgPhoto3] 2 (by decide)
    simpa using h⟩

/-- C3: for both filter implementations, the pdfs selector returns exactly
the input messages carrying a document of MIME type exactly
application/pdf, order preserved (List.filter), and the all selector is
the identity. -/
theorem filter_pdfs_exact_and_all_identity (messages : List Message) :
    TelegramDownloader.filter_messages_by_type messages ("pdfs")
      = messages.filter carriesPdfDocument
    ∧ TelegramDownloader.filter_messages_by_type messages ("all") = messages
    ∧ filter_messages_by_type messages ("pdfs") = messages.filter carriesPdfDocument
    ∧ filter_messages_by_type messages ("all") = messages := by
  refine ⟨?_, ?_, ?_, ?_⟩
  · unfold TelegramDownloader.filter_messages_by_type
    rw [if_neg (by decide)]
    refine List.filter_congr fun m _ => ?_
    rw [if_neg (by decide), if_neg (by decide), if_pos (by decide)]
    rfl
  · unfold TelegramDownloader.filter_messages_by_type
    rw [if_pos (by decide)]
  · unfold filter_messages_by_type
    rw [if_neg (by decide)]
    refine List.filter_congr fun m _ => ?_
    rw [if_neg (by decide), if_neg (by decide), if_pos (by decide)]
    rfl
  · unfold filter_messages_by_type
    rw [if_pos (by decide)]

/-- C9 counterexample: the selector ALL (uppercase) lies outside the
claim's closed set of selector strings, yet both filter implementations
return the input unchanged (the code lowercases before dispatching), not
the empty list — refuting the claim as stated. -/
theorem selector_ALL_outside_set_but_identity :
    ("ALL" ∉ (["images", "videos", "pdfs", "zips", "documents", "all"] : List String))
    ∧ TelegramDownloader.filter_messages_by_type [msgPdf] ("ALL") = [msgPdf]
    ∧ filter_messages_by_type [msgPdf] ("ALL") = [msgPdf] := by
  refine ⟨by decide, ?_, ?_⟩ <;> rfl

/-- C9 (amended): for every selector whose lowercased form is outside the
closed set, both filter implementations return the empty list (they are
total functions: no exception, and no fallback to the all behaviour). -/
theorem unknown_selector_returns_empty (messages : List Message) (selector : String)
    (h : pyLower selector ∉
      (["images", "videos", "pdfs", "zips", "documents", "all"] : List String)) :
    TelegramDownloader.filter_messages_by_type messages selector = []
    ∧ filter_messages_by_type messages selector = [] := by
  simp only [List.mem_cons, List.mem_singleton, not_or] at h
  obtain ⟨h1, h2, h3, h4, h5, h6, -⟩ := h
  constructor
  · unfold TelegramDownloader.filter_messages_by_type
    rw [if_neg h6]
    have hfalse : ∀ m ∈ messages,
        (if pyLower selector = "images" then m.photo.isSome
         else if pyLower selector = "videos" then m.video.isSome
         else if pyLower selector = "pdfs" then
           match m.document with
           | some d => d.mime_type == some ("application/pdf")
           | none => false
         else if pyLower selector = "zips" then
           match m.document with
           | some d => d.mime_type == some ("application/zip")
           | none => false
         else if pyLower selector = "documents" then m.document.isSome
         else false)
        = (fun _ : Message => false) m := fun m _ => by
      rw [if_neg h1, if_neg h2, if_neg h3, if_neg h4, if_neg h5]
    exact (List.filter_congr hfalse).trans (List.filter_false _)
  · unfold filter_messages_by_type
    rw [if_neg h6]
    have hfalse : ∀ m ∈ messages,
        (if pyLower selector = "images" then m.photo.isSome
         else if pyLower selector = "videos" then m.video.isSome
         else if pyLower selector = "pdfs" then
           match m.document with
           | some d => d.mime_type == some ("application/pdf")
           | none => false
         else if pyLower selector = "zips" then
           match m.document with
           | some d => d.mime_type == some ("application/zip")
           | none => false
         else if pyLower selector = "documents" then m.document.isSome
         else false)
        = (fun _ : Message => false) m := fun m _ => by
      rw [if_neg h1, if_neg h2, if_neg h3, if_neg h4, if_neg h5]
    exact (List.filter_congr hfalse).trans (List.filter_false _)

/-- Witness for the amended C9 at a concrete unknown selector. -/
theorem unknown_selector_returns_empty_witness :
    (pyLower ("archives") ∉
      (["images", "videos", "pdfs", "zips", "documents", "all"] : List String))
    ∧ TelegramDownloader.filter_messages_by_type [msgPdf] ("archives") = []
    ∧ filter_messages_by_type [msgPdf] ("archives") = [] :=
  ⟨by decide,
   (unknown_selector_returns_empty [msgPdf] ("archives") (by decide)).1,
   (unknown_selector_returns_empty [msgPdf] ("archives") (by decide)).2⟩

/-- C8 counterexample: the placeholder filename of msgPlaceholder is
detected by the guard, but the replacement is the message.file.name
attribute value real_name.bin — message data, not a synthesized name: it
differs from every synthesized form for this message, refuting the
claim's replaced-by-a-synthesized-fallback part as stated. -/
theorem placeholder_fallback_not_synthesized :
    TelegramDownloader.resolved_file_name msgPlaceholder = "real_name.bin"
    ∧ pyStartswith (TelegramDownloader.get_file_name msgPlaceholder)
        ("<telethon.tl.custom") = true
    ∧ "real_name.bin" ≠ "media_7"
    ∧ "real_name.bin" ≠ "video_7.mp4"
    ∧ "real_name.bin" ≠ "photo_7.jpg"
    ∧ "real_name.bin" ≠ "document_7" := by
  refine ⟨rfl, rfl, ?_, ?_, ?_, ?_⟩ <;> decide

/-- C8 (amended): filename derivation prefers the document's explicit
filename attribute; without one it synthesizes document_{id} for document
messages, video_{id}.mp4 for video messages without a document payload,
and photo_{id}.jpg for photo messages without document or video payloads;
and a filename that is a telethon placeholder object string is detected in
download_file and replaced before use as the destination name — by the
message.file.name attribute when that is present and nonempty, otherwise
by the synthesized media_{id} fallback. -/
theorem filename_derivation_and_guard (m : Message) :
    (∀ d n, m.document = some d →
       TelegramDownloader.findFilenameAttr d.attributes = some n →
       TelegramDownloader.get_file_name m = n)
    ∧ (∀ d, m.document = some d →
       TelegramDownloader.findFilenameAttr d.attributes = none →
       TelegramDownloader.get_file_name m = "document_" ++ toString m.id)
    ∧ (m.document = none → m.video.isSome = true →
       TelegramDownloader.get_file_name m = "video_" ++ toString m.id ++ ".mp4")
    ∧ (m.document = none → m.video = none → m.photo.isSome = true →
       TelegramDownloader.get_file_name m = "photo_" ++ toString m.id ++ ".jpg")
    ∧ (∀ n, pyStartswith (TelegramDownloader.get_file_name m) ("<telethon.tl.custom") = true →
       m.file_name = some n → n ≠ "" →
       TelegramDownloader.resolved_file_name m = n)
    ∧ (pyStartswith (TelegramDownloader.get_file_name m) ("<telethon.tl.custom") = true →
       (m.file_name = none ∨ m.file_name = some "") →
       TelegramDownloader.resolved_file_name m = "media_" ++ toString m.id)
    ∧ (pyStartswith (TelegramDownloader.get_file_name m) ("<telethon.tl.custom") = false →
       TelegramDownloader.resolved_file_name m = TelegramDownloader.get_file_name m) := by
  refine ⟨?_, ?_, ?_, ?_, ?_, ?_, ?_⟩
  · intro d n hd hn
    simp [TelegramDownloader.get_file_name, hd, hn]
  · intro d hd hn
    simp [TelegramDownloader.get_file_name, hd, hn]
  · intro hd hv
    obtain ⟨v, hv⟩ := Option.isSome_iff_exists.mp hv
    simp [TelegramDownloader.get_file_name, hd, hv]
  · intro hd hv hp
    obtain ⟨p, hp⟩ := Option.isSome_iff_exists.mp hp
    simp [TelegramDownloader.get_file_name, hd, hv, hp]
  · intro n hs hf hn
    simp [TelegramDownloader.resolved_file_name, hs, hf, hn]
  · intro hs hor
    rcases hor with hf | hf <;> simp [TelegramDownloader.resolved_file_name, hs, hf]
  · intro hs
    simp [TelegramDownloader.resolved_file_name, hs]

/-- Witness for the amended C8: an explicit filename attribute wins, a
bare video message gets the synthesized name, and a placeholder filename
is replaced by message.file.name. -/
theorem filename_derivation_witness :
    TelegramDownloader.get_file_name msgDocNamed = "report.pdf"
    ∧ TelegramDownloader.get_file_name msgVideo5 = "video_5.mp4"
    ∧ TelegramDownloader.resolved_file_name msgPlaceholder = "real_name.bin" :=
  ⟨(filename_derivation_and_guard msgDocNamed).1 _ _ rfl rfl,
   (filename_derivation_and_guard msgVideo5).2.2.1 rfl rfl,
   (filename_derivation_and_guard msgPlaceholder).2.2.2.2.1 _ (by decide) rfl (by decide)⟩

theorem bumpContext_total (lt : TelegramLinkExtractor.LinkTypeCounts)
    (c : TelegramLinkExtractor.Context) :
    (TelegramLinkExtractor.bumpContext lt c).text
    + (TelegramLinkExtractor.bumpContext lt c).caption
    + (TelegramLinkExtractor.bumpContext lt c).entity
    + (TelegramLinkExtractor.bumpContext lt c).button
    = lt.text + lt.caption + lt.entity + lt.button + 1 := by
  cases c <;> simp [TelegramLinkExtractor.bumpContext] <;> omega

theorem addCounts_total :
    ∀ (recs : List TelegramLinkExtractor.LinkRecord)
      (lt : TelegramLinkExtractor.LinkTypeCounts),
      (TelegramLinkExtractor.addCounts lt recs).text
      + (TelegramLinkExtractor.addCounts lt recs).caption
      + (TelegramLinkExtractor.addCounts lt recs).entity
      + (TelegramLinkExtractor.addCounts lt recs).button
      = lt.text + lt.caption + lt.entity + lt.button + recs.length := by
  intro recs
  induction recs with
  | nil => intro lt; simp [TelegramLinkExtractor.addCounts]
  | cons r rs ih =>
    intro lt
    simp only [TelegramLinkExtractor.addCounts, List.length_cons]
    rw [ih, bumpContext_total]
    omega

theorem extractLoop_invariant (now : Nat) :
    ∀ (msgs : List TelegramLinkExtractor.LMessage)
      (acc : TelegramLinkExtractor.ExtractAcc),
      acc.total_links = acc.links.length →
      acc.link_types.text + acc.link_types.caption + acc.link_types.entity
        + acc.link_types.button = acc.links.length →
      (TelegramLinkExtractor.extractLoop now acc msgs).total_links
        = (TelegramLinkExtractor.extractLoop now acc msgs).links.length
      ∧ (TelegramLinkExtractor.extractLoop now acc msgs).link_types.text
        + (TelegramLinkExtractor.extractLoop now acc msgs).link_types.caption
        + (TelegramLinkExtractor.extractLoop now acc msgs).link_types.entity
        + (TelegramLinkExtractor.extractLoop now acc msgs).link_types.button
        = (TelegramLinkExtractor.extractLoop now acc msgs).links.length := by
  intro msgs
  induction msgs with
  | nil =>
    intro acc h1 h2
    exact ⟨h1, h2⟩
  | cons m ms ih =>
    intro acc h1 h2
    simp only [TelegramLinkExtractor.extractLoop]
    apply ih
    · simp only [List.length_append]
      omega
    · rw [addCounts_total]
      simp only [List.length_append]
      omega

/-- C6: in the extraction report over the full collected record list,
unique_links is the number of distinct link strings under exact
case-sensitive string equality (the dedup length of the link list), and
the per-context link_types counts sum to total_links_found, which equals
the number of collected link records. -/
theorem extraction_report_unique_and_type_counts
    (msgs : List TelegramLinkExtractor.LMessage) (now : Nat) :
    (TelegramLinkExtractor.extract_links_from_channel msgs now).unique_links
      = ((TelegramLinkExtractor.extract_links_from_channel msgs now).links.map
          TelegramLinkExtractor.LinkRecord.link).dedup.length
    ∧ (TelegramLinkExtractor.extract_links_from_channel msgs now).link_types.text
      + (TelegramLinkExtractor.extract_links_from_channel msgs now).link_types.caption
      + (TelegramLinkExtractor.extract_links_from_channel msgs now).link_types.entity
      + (TelegramLinkExtractor.extract_links_from_channel msgs now).link_types.button
      = (TelegramLinkExtractor.extract_links_from_channel msgs now).total_links_found
    ∧ (TelegramLinkExtractor.extract_links_from_channel msgs now).total_links_found
      = (TelegramLinkExtractor.extract_links_from_channel msgs now).links.length := by
  have hinv := extractLoop_invariant now msgs
    { message_count := 0, total_links := 0, links := [],
      link_types := { text := 0, caption := 0, entity := 0, button := 0 } } rfl rfl
  refine ⟨?_, ?_, ?_⟩
  · simp only [TelegramLinkExtractor.extract_links_from_channel]
    exact List.card_toFinset _
  · simp only [TelegramLinkExtractor.extract_links_from_channel]
    exact hinv.2.trans hinv.1.symm
  · simp only [TelegramLinkExtractor.extract_links_from_channel]
    exact hinv.1

theorem countWhile_le (p : Char → Bool) :
    ∀ cs : List Char, TelegramLinkExtractor.countWhile p cs ≤ cs.length := by
  intro cs
  induction cs with
  | nil => simp [TelegramLinkExtractor.countWhile]
  | cons c cs ih =>
    simp only [TelegramLinkExtractor.countWhile, List.length_cons]
    split
    · omega
    · omega

theorem finditer_matchAt (matchAt : List Char → Option Nat) (full : List Char) :
    ∀ (fuel pos s l : Nat),
      (s, l) ∈ TelegramLinkExtractor.finditer matchAt fuel (full.drop pos) pos →
      matchAt (full.drop s) = some l := by
  intro fuel
  induction fuel with
  | zero =>
    intro pos s l h
    simp [TelegramLinkExtractor.finditer] at h
  | succ fuel ih =>
    intro pos s l h
    cases hd : full.drop pos with
    | nil =>
      rw [hd] at h
      simp [TelegramLinkExtractor.finditer] at h
    | cons c cs =>
      rw [hd] at h
      have hcs : full.drop (pos + 1) = cs := by
        have h1 := congrArg (List.drop 1) hd
        rw [List.drop_drop] at h1
        simpa [Nat.add_comm] using h1
      simp only [TelegramLinkExtractor.finditer] at h
      cases hm : matchAt (c :: cs) with
      | none =>
        simp only [hm] at h
        exact ih (pos + 1) s l (by rw [hcs]; exact h)
      | some len =>
        simp only [hm] at h
        by_cases hz : len = 0
        · rw [if_pos hz] at h
          exact ih (pos + 1) s l (by rw [hcs]; exact h)
        · rw [if_neg hz] at h
          rcases List.mem_cons.mp h with heq | htail
          · obtain ⟨hs, hl⟩ := Prod.ext_iff.mp heq
            subst hs
            subst hl
            rw [hd, hm]
          · have hdrop : (c :: cs).drop len = full.drop (pos + len) := by
              rw [← hd, List.drop_drop]
            exact ih (pos + len) s l (by rw [hdrop] at htail; exact htail)

theorem p3At_eq_some {cs : List Char} {len : Nat}
    (h : TelegramLinkExtractor.p3At cs = some len) :
    ∃ rest, cs = '@' :: rest
      ∧ len = 1 + min (TelegramLinkExtractor.countWhile TelegramLinkExtractor.isWordChar rest) 32
      ∧ 5 ≤ min (TelegramLinkExtractor.countWhile TelegramLinkExtractor.isWordChar rest) 32 := by
  cases cs with
  | nil => simp [TelegramLinkExtractor.p3At] at h
  | cons c rest =>
    simp only [TelegramLinkExtractor.p3At] at h
    split_ifs at h with hc h5
    · subst hc
      injection h with h
      exact ⟨rest, rfl, h.symm, h5⟩

/-- C7: the scanner records every match of every one of the five patterns
independently — on the text https://t.me/foo the single URL substring
yields two records, one from the prefixed pattern and one from the bare
t.me pattern, with no deduplication at capture time — and every record the
at-handle pattern produces is an at-sign followed by a handle of length
between 5 and 32 characters. -/
theorem link_scanner_no_dedup_and_handle_bounds :
    ((TelegramLinkExtractor.extract_links_from_text ("https://t.me/foo") 1 none
        TelegramLinkExtractor.Context.text 0).map TelegramLinkExtractor.LinkRecord.link
      = ["https://t.me/foo", "t.me/foo"])
    ∧ ∀ (text : String) (mid : Int) (cid : Option Int)
        (ctx : TelegramLinkExtractor.Context) (now : Nat)
        (r : TelegramLinkExtractor.LinkRecord),
        r ∈ TelegramLinkExtractor.patternRecords TelegramLinkExtractor.p3At
              text mid cid ctx now →
        ∃ handle : List Char, r.link.data = '@' :: handle
          ∧ 5 ≤ handle.length ∧ handle.length ≤ 32 := by
  constructor
  · decide
  · intro text mid cid ctx now r hr
    simp only [TelegramLinkExtractor.patternRecords, List.mem_map] at hr
    obtain ⟨sl, hmem, rfl⟩ := hr
    obtain ⟨s, l⟩ := sl
    have hmem0 : (s, l) ∈ TelegramLinkExtractor.finditer TelegramLinkExtractor.p3At
        text.data.length (text.data.drop 0) 0 := by
      simpa using hmem
    have hmatch := finditer_matchAt TelegramLinkExtractor.p3At text.data
      text.data.length 0 s l hmem0
    obtain ⟨rest, hds, hlen, h5⟩ := p3At_eq_some hmatch
    refine ⟨rest.take (min (TelegramLinkExtractor.countWhile
      TelegramLinkExtractor.isWordChar rest) 32), ?_, ?_, ?_⟩
    · show (text.data.drop s).take l = _
      rw [hds, hlen, Nat.add_comm 1 _, List.take_succ_cons]
    · rw [List.length_take]
      have hm : min (TelegramLinkExtractor.countWhile
          TelegramLinkExtractor.isWordChar rest) 32 ≤ rest.length :=
        le_trans (Nat.min_le_left _ _) (countWhile_le _ _)
      omega
    · rw [List.length_take]
      have := Nat.min_le_right (TelegramLinkExtractor.countWhile
        TelegramLinkExtractor.isWordChar rest) 32
      omega

/-- Witness for C7's handle bound at the concrete text with one at-handle
match. -/
theorem link_scanner_handle_bounds_witness :
    ∃ handle : List Char,
      (TelegramLinkExtractor.LinkRecord.link
        { link := "@hello", message_id := 0, chat_id := none,
          context := TelegramLinkExtractor.Context.text,
          position := some (0, 6), timestamp := 0 }).data = '@' :: handle
      ∧ 5 ≤ handle.length ∧ handle.length ≤ 32 :=
  link_scanner_no_dedup_and_handle_bounds.2 ("@hello") 0 none
    TelegramLinkExtractor.Context.text 0
    { link := "@hello", message_id := 0, chat_id := none,
      context := TelegramLinkExtractor.Context.text,
      position := some (0, 6), timestamp := 0 }
    (by decide)
